import Mathlib

/-!
Shallow embedding of the Nokia 7220-IXR-H4-32D SWPLD3 CPLD driver
(src/ixr7220h4-32d/modules/h4_32d_swpld3.c) and verification of the
specification claims about it.

The embedding models:
* the register address map and bit-index constants (the C `#define`s);
* the bitfield read-modify-write arithmetic of the `set_*` store
  functions and the bit extraction of the `show_*` show functions;
* the i2c access helpers `cpld_i2c_read` / `cpld_i2c_write`, with the
  transport as an explicit function and every bus transaction recorded
  in a trace;
* the mutex acquire/release structure of the access helpers, as an
  explicit event trace (`LockEv`), so that lock-holding across the
  read-modify-write sequence can be stated;
* the probe (attach) function with its identification reads and
  bring-up write sequence, with the capability check, allocation and
  sysfs creation modelled as environment flags.

Machine integers are modelled as `Nat` for `u8` values (with `% 256`
at the points where C truncates an `int` into a `u8`) and `Int` for C
`int` values (i2c return codes may be negative errnos).
-/

namespace Swpld3

/-! ## Register address map (C `#define`s, lines 31-51) -/

def CODE_REV_REG : Nat := 0x01

def LED_TEST_REG : Nat := 0x08

def SCRATCH_REG : Nat := 0x0F

def RST_REG : Nat := 0x10

def QSFP_RST_REG0 : Nat := 0x11

def QSFP_RST_REG1 : Nat := 0x12

def QSFP_INITMOD_REG0 : Nat := 0x21

def QSFP_INITMOD_REG1 : Nat := 0x22

def QSFP_MODSEL_REG0 : Nat := 0x31

def QSFP_MODSEL_REG1 : Nat := 0x32

def HITLESS_REG : Nat := 0x39

def QSFP_MODPRS_REG0 : Nat := 0x51

def QSFP_MODPRS_REG1 : Nat := 0x52

def QSFP_INT_REG0 : Nat := 0x61

def QSFP_INT_REG1 : Nat := 0x62

def SFP_REG0 : Nat := 0x71

def SFP_REG1 : Nat := 0x72

def CODE_DAY_REG : Nat := 0xF0

def CODE_MONTH_REG : Nat := 0xF1

def CODE_YEAR_REG : Nat := 0xF2

/-! ## Bit-field positions and masks (lines 54-88) -/

def CODE_REV_REG_VER_MSK : Nat := 0x3F

def CODE_REV_REG_TYPE : Nat := 0x7

def RST_REG_PLD_SOFT_RST : Nat := 0x0

def SFP_REG1_TX_EN : Nat := 0x7

def QSFP17_INDEX : Nat := 0x7

def QSFP18_INDEX : Nat := 0x6

def QSFP19_INDEX : Nat := 0x5

def QSFP20_INDEX : Nat := 0x4

def QSFP21_INDEX : Nat := 0x3

def QSFP22_INDEX : Nat := 0x2

def QSFP23_INDEX : Nat := 0x1

def QSFP24_INDEX : Nat := 0x0

def QSFP25_INDEX : Nat := 0x7

def QSFP26_INDEX : Nat := 0x6

def QSFP27_INDEX : Nat := 0x5

def QSFP28_INDEX : Nat := 0x4

def QSFP29_INDEX : Nat := 0x3

def QSFP30_INDEX : Nat := 0x2

def QSFP31_INDEX : Nat := 0x1

def QSFP32_INDEX : Nat := 0x0

/-! ## Errno values used by the driver -/

def EIO_errno : Int := 5

def ENOMEM : Int := 12

def EINVAL : Int := 22

/-! ## Bitfield codec

The `set_*` store functions all compute (lines 231-235 of `set_rst`,
repeated verbatim in every other store function):

    mask = (~(1 << sda->index)) & 0xFF;
    reg_val = cpld_i2c_read(data, REG);
    reg_val = reg_val & mask;
    usr_val = usr_val << sda->index;
    cpld_i2c_write(data, REG, (reg_val | usr_val));

In C, `~x & 0xFF` of the `int` value `x = 1 << i` is the two's
complement `(-x - 1) mod 256`, i.e. `255 - ((1 << i) mod 256)`.
The `u8` assignment `usr_val = usr_val << sda->index` truncates mod 256.
-/

/-- The mask `(~(1 << index)) & 0xFF` computed by every store function. -/
def rmwMask (i : Nat) : Nat := 255 - ((1 <<< i) % 256)

/-- The byte committed by a store function: clear bit `i` of `v` with
`rmwMask`, then or in the user value `b` shifted to position `i`
(truncated to a byte as the C `u8` assignment does). -/
def injectBit (v i b : Nat) : Nat := (v &&& rmwMask i) ||| ((b <<< i) % 256)

/-- The bit reading every show function performs on a register byte:
`(val >> sda->index) & 0x1 ? 1 : 0`. -/
def extractBit (v i : Nat) : Nat := if (v >>> i) &&& 1 ≠ 0 then 1 else 0

/-- Modelled from the spec (section 4.2), not present in the C source:
`extractField(registerValue, bitIndex, width)` returns the `width`-bit
unsigned field of `registerValue` starting at `bitIndex`.  Used only to
compare the identification-register decomposition the spec describes
(a 6-bit version field and a 3-bit type field) with what the code
computes. -/
def extractField (v i w : Nat) : Nat := (v >>> i) &&& (2 ^ w - 1)

/-- C conversion of an `int` into a `u8` (assignment truncation mod 256). -/
def u8ofInt (x : Int) : Nat := (x % 256).toNat

/-- C bitwise AND of a (possibly negative) `int` with the constant mask
`0x3F`, generalized to any mask `m` such that `m + 1` is a power of two:
in two's complement, `x & (2^k - 1)` equals `x mod 2^k` (Euclidean mod),
which is how the driver computes `cpld_i2c_read(..) & CODE_REV_REG_VER_MSK`. -/
def landC (x : Int) (m : Nat) : Int := x % ((m : Int) + 1)

/-- C arithmetic (sign-extending) right shift of an `int`, as used in
`cpld_i2c_read(..) >> CODE_REV_REG_TYPE`. -/
def sarC (x : Int) (n : Nat) : Int := Int.shiftRight x n

/-! ## Transport and bus trace

`i2c_smbus_read_byte_data` returns a byte (0-255) or a negative errno;
`i2c_smbus_write_byte_data` returns 0 or a negative errno.  The
transport is an explicit pair of functions, and every transaction the
driver issues is recorded in a `BusOp` trace. -/

/-- One transaction on the i2c bus as seen on the wire. -/
inductive BusOp where
  | read (reg : Nat)
  | write (reg : Nat) (val : Nat)
deriving DecidableEq, Repr

/-- The i2c transport: byte reads and byte writes against the device. -/
structure Transport where
  readB : Nat → Int
  writeB : Nat → Nat → Int

/-- A transport over an ideal register file `m`: reads return the stored
byte, writes always succeed. -/
def regsTransport (m : Nat → Nat) : Transport :=
  { readB := fun reg => ((m reg : Int)), writeB := fun _ _ => 0 }

/-- `cpld_i2c_read` (lines 102-115): locks the mutex, issues the
transport read, logs on failure, unlocks, and returns the transport's
result (byte or negative errno) unchanged to its caller. -/
def cpld_i2c_read (tr : Transport) (reg : Nat) : Int × List BusOp :=
  (tr.readB reg, [BusOp.read reg])

/-- `cpld_i2c_write` (lines 117-128): locks the mutex, issues the
transport write, logs on failure, unlocks.  The C function has return
type `void`: the transport status `res` is inspected only for logging
and is never returned, so the caller receives nothing. -/
def cpld_i2c_write (tr : Transport) (reg v : Nat) : Unit × List BusOp :=
  let _res : Int := tr.writeB reg v
  ((), [BusOp.write reg v])

/-! ## Lock event traces

`cpld_i2c_read` and `cpld_i2c_write` each take and release
`data->update_lock` internally (`mutex_lock` / `mutex_unlock` around the
single smbus call).  A store function therefore produces the event
sequence below; `lockDepth` counts how many unreleased `lock` events a
prefix of the trace contains. -/

/-- Mutex and bus events in program order. -/
inductive LockEv where
  | lock
  | unlock
  | busRead (reg : Nat)
  | busWrite (reg : Nat) (val : Nat)
deriving DecidableEq, Repr

/-- Event sequence of one `cpld_i2c_read` call:
`mutex_lock`; `i2c_smbus_read_byte_data`; `mutex_unlock`. -/
def cpld_i2c_read_events (reg : Nat) : List LockEv :=
  [LockEv.lock, LockEv.busRead reg, LockEv.unlock]

/-- Event sequence of one `cpld_i2c_write` call:
`mutex_lock`; `i2c_smbus_write_byte_data`; `mutex_unlock`. -/
def cpld_i2c_write_events (reg v : Nat) : List LockEv :=
  [LockEv.lock, LockEv.busWrite reg v, LockEv.unlock]

/-- Event sequence of the bus phase of a store function (`set_rst` and
its clones): one `cpld_i2c_read` call followed, after the in-memory bit
injection, by one `cpld_i2c_write` call of the updated byte `v`. -/
def set_bit_events (reg v : Nat) : List LockEv :=
  cpld_i2c_read_events reg ++ cpld_i2c_write_events reg v

/-- Number of unreleased `lock` events in a trace. -/
def lockDepth (t : List LockEv) : Nat :=
  t.foldl
    (fun d e =>
      match e with
      | LockEv.lock => d + 1
      | LockEv.unlock => d - 1
      | _ => d)
    0

/-- The mutex is held at every point strictly after position `r` and up
to position `w` of the trace (the property the spec asserts for the
span from the read to the write of a read-modify-write sequence). -/
def heldBetween (t : List LockEv) (r w : Nat) : Prop :=
  ∀ k, k ≤ w → r < k → 0 < lockDepth (t.take k)

/-! ## kstrtou8 outcome and the store / show functions

Every store function starts with `kstrtou8(buf, base, &usr_val)`; the
kernel parser is outside this repository, so its outcome is passed in
explicitly: `ret` (0 on success, a negative errno otherwise) and the
parsed byte `val`. -/

/-- Outcome of the `kstrtou8` call at the top of a store function. -/
structure KstrtoRes where
  ret : Int
  val : Nat
deriving DecidableEq, Repr

/-- Common body of every single-bit store function (`set_rst` lines
215-238; `set_led_test`, `set_qsfp_rst0/1`, `set_qsfp_initmod0/1`,
`set_qsfp_modsel0/1` and `set_sfp_reg1` repeat the same body verbatim
with their own register): reject a failed parse with its errno, reject
`usr_val > 1` with `-EINVAL` (both before any bus access), otherwise
read the register, inject the bit and write the result back, returning
`count`.  Returns the sysfs `ssize_t` and the bus transactions issued. -/
def set_bit_common (reg index : Nat) (k : KstrtoRes) (tr : Transport)
    (count : Nat) : Int × List BusOp :=
  if k.ret ≠ 0 then (k.ret, [])
  else if 1 < k.val then (-EINVAL, [])
  else
    let r := cpld_i2c_read tr reg
    let w := cpld_i2c_write tr reg (injectBit (u8ofInt r.1) index k.val)
    ((count : Int), r.2 ++ w.2)

/-- Common body of every single-bit show function (`show_rst` lines
205-213 and its clones): read the register, truncate the `int` result
into the `u8` local `val`, and print bit `index` of it.  Returns the
printed bit and the bus transactions issued. -/
def show_bit_common (reg index : Nat) (tr : Transport) : Nat × List BusOp :=
  let r := cpld_i2c_read tr reg
  (extractBit (u8ofInt r.1) index, r.2)

/-- `set_rst` (lines 215-238): store of the soft-reset bit in `RST_REG`. -/
def set_rst (index : Nat) (k : KstrtoRes) (tr : Transport) (count : Nat) :
    Int × List BusOp :=
  set_bit_common RST_REG index k tr count

/-- `show_rst` (lines 205-213). -/
def show_rst (index : Nat) (tr : Transport) : Nat × List BusOp :=
  show_bit_common RST_REG index tr

/-- `set_qsfp_rst0` (lines 251-274). -/
def set_qsfp_rst0 (index : Nat) (k : KstrtoRes) (tr : Transport) (count : Nat) :
    Int × List BusOp :=
  set_bit_common QSFP_RST_REG0 index k tr count

/-- `set_qsfp_rst1` (lines 287-310). -/
def set_qsfp_rst1 (index : Nat) (k : KstrtoRes) (tr : Transport) (count : Nat) :
    Int × List BusOp :=
  set_bit_common QSFP_RST_REG1 index k tr count

/-- `show_scratch` (lines 177-185): prints the whole register byte. -/
def show_scratch (tr : Transport) : Nat × List BusOp :=
  let r := cpld_i2c_read tr SCRATCH_REG
  (u8ofInt r.1, r.2)

/-- `set_scratch` (lines 187-203): parse base-16, reject a failed parse,
reject `usr_val > 0xFF` with `-EINVAL`, then write the byte directly. -/
def set_scratch (k : KstrtoRes) (tr : Transport) (count : Nat) :
    Int × List BusOp :=
  if k.ret ≠ 0 then (k.ret, [])
  else if 255 < k.val then (-EINVAL, [])
  else
    let w := cpld_i2c_write tr SCRATCH_REG k.val
    ((count : Int), w.2)

/-! ## Cached identification fields and the show functions serving them -/

/-- `struct cpld_data`, identification part: the five fields cached by
probe (the `client` handle and the mutex are modelled separately, as the
`Transport` and the `LockEv` traces). -/
structure CpldData where
  code_ver : Int
  code_type : Int
  code_day : Int
  code_month : Int
  code_year : Int
deriving DecidableEq, Repr

/-- `show_code_ver` (lines 130-134): prints the cached `code_ver`; no
bus access. -/
def show_code_ver (d : CpldData) : Int × List BusOp := (d.code_ver, [])

/-- `show_code_type` (lines 136-140): prints the cached `code_type`; no
bus access. -/
def show_code_type (d : CpldData) : Int × List BusOp := (d.code_type, [])

/-- `show_code_day` (lines 557-561): prints the cached `code_day`; no
bus access. -/
def show_code_day (d : CpldData) : Int × List BusOp := (d.code_day, [])

/-- `show_code_month` (lines 563-567): prints the cached `code_month`;
no bus access. -/
def show_code_month (d : CpldData) : Int × List BusOp := (d.code_month, [])

/-- `show_code_year` (lines 569-573): prints the cached `code_year`; no
bus access. -/
def show_code_year (d : CpldData) : Int × List BusOp := (d.code_year, [])

/-- The identification reads of probe (lines 808-812):

    data->code_ver = cpld_i2c_read(data, CODE_REV_REG) & CODE_REV_REG_VER_MSK;
    data->code_type = cpld_i2c_read(data, CODE_REV_REG) >> CODE_REV_REG_TYPE;
    data->code_day = cpld_i2c_read(data, CODE_DAY_REG);
    data->code_month = cpld_i2c_read(data, CODE_MONTH_REG);
    data->code_year = cpld_i2c_read(data, CODE_YEAR_REG);

None of the read results is checked for failure. -/
def cacheIdent (tr : Transport) : CpldData × List BusOp :=
  let r1 := cpld_i2c_read tr CODE_REV_REG
  let r2 := cpld_i2c_read tr CODE_REV_REG
  let r3 := cpld_i2c_read tr CODE_DAY_REG
  let r4 := cpld_i2c_read tr CODE_MONTH_REG
  let r5 := cpld_i2c_read tr CODE_YEAR_REG
  ({ code_ver := landC r1.1 CODE_REV_REG_VER_MSK
     code_type := sarC r2.1 CODE_REV_REG_TYPE
     code_day := r3.1
     code_month := r4.1
     code_year := r5.1 },
   r1.2 ++ r2.2 ++ r3.2 ++ r4.2 ++ r5.2)

/-! ## Probe (attach) -/

/-- Environment of one probe call: the transport, plus the outcomes of
the three fallible preliminary steps (`i2c_check_functionality`,
`kzalloc`, `sysfs_create_group`). -/
structure ProbeEnv where
  tr : Transport
  has_byte_data : Bool
  alloc_ok : Bool
  sysfs_status : Int

/-- `h4_32d_swpld3_probe` (lines 777-824).  Returns the probe status
(`0` on success, a negative errno otherwise), the `cpld_data` left
installed as client data (`none` when no instance was allocated), and
the bus transactions issued.  After the preliminary steps succeed, the
code caches the identification fields, then unconditionally issues the
bring-up writes (lines 813-818) and returns 0 — no i2c result in this
tail is ever checked. -/
def h4_32d_swpld3_probe (env : ProbeEnv) : Int × Option CpldData × List BusOp :=
  if env.has_byte_data = false then (-EIO_errno, none, [])
  else if env.alloc_ok = false then (-ENOMEM, none, [])
  else if env.sysfs_status ≠ 0 then
    (env.sysfs_status, some ⟨0, 0, 0, 0, 0⟩, [])
  else
    let c := cacheIdent env.tr
    let w1 := cpld_i2c_write env.tr QSFP_RST_REG0 0xFF
    let w2 := cpld_i2c_write env.tr QSFP_RST_REG1 0xFF
    let w3 := cpld_i2c_write env.tr QSFP_INITMOD_REG0 0x0
    let w4 := cpld_i2c_write env.tr QSFP_INITMOD_REG1 0x0
    let w5 := cpld_i2c_write env.tr QSFP_MODSEL_REG0 0x0
    let w6 := cpld_i2c_write env.tr QSFP_MODSEL_REG1 0x0
    (0, some c.1, c.2 ++ w1.2 ++ w2.2 ++ w3.2 ++ w4.2 ++ w5.2 ++ w6.2)

/-- The full bus trace of a successful probe, for reference in
statements: the five identification reads followed by the six bring-up
writes in source order. -/
def probeTrace : List BusOp :=
  [BusOp.read CODE_REV_REG, BusOp.read CODE_REV_REG,
   BusOp.read CODE_DAY_REG, BusOp.read CODE_MONTH_REG,
   BusOp.read CODE_YEAR_REG,
   BusOp.write QSFP_RST_REG0 0xFF, BusOp.write QSFP_RST_REG1 0xFF,
   BusOp.write QSFP_INITMOD_REG0 0x0, BusOp.write QSFP_INITMOD_REG1 0x0,
   BusOp.write QSFP_MODSEL_REG0 0x0, BusOp.write QSFP_MODSEL_REG1 0x0]

/-- Effect of one bus transaction on an ideal register file: a write
stores the byte at its register, a read changes nothing. -/
def applyOp (m : Nat → Nat) : BusOp → (Nat → Nat)
  | BusOp.read _ => m
  | BusOp.write r v => fun r2 => if r2 = r then v % 256 else m r2

/-- Register file after a trace of bus transactions. -/
def applyTrace (m : Nat → Nat) (t : List BusOp) : Nat → Nat :=
  t.foldl applyOp m

/-! ## The QSFP attribute table (lines 584-664)

Each of the five per-port attribute families (`qsfpN_rst`,
`qsfpN_lpmod`, `qsfpN_modsel`, `qsfpN_prs`, `qsfpN_int`) binds port `N`
to register 0 of its family for ports 17-24 and register 1 for ports
25-32, always with bit index `QSFPN_INDEX`. -/

/-- One attribute binding: target register and bit index. -/
structure AttrDesc where
  reg : Nat
  idx : Nat
deriving DecidableEq, Repr

/-- The per-port binding shared by all five families, parameterized by
the family's two registers; one line per `SENSOR_DEVICE_ATTR` entry. -/
def qsfpDesc (reg0 reg1 : Nat) : Nat → AttrDesc
  | 17 => ⟨reg0, QSFP17_INDEX⟩
  | 18 => ⟨reg0, QSFP18_INDEX⟩
  | 19 => ⟨reg0, QSFP19_INDEX⟩
  | 20 => ⟨reg0, QSFP20_INDEX⟩
  | 21 => ⟨reg0, QSFP21_INDEX⟩
  | 22 => ⟨reg0, QSFP22_INDEX⟩
  | 23 => ⟨reg0, QSFP23_INDEX⟩
  | 24 => ⟨reg0, QSFP24_INDEX⟩
  | 25 => ⟨reg1, QSFP25_INDEX⟩
  | 26 => ⟨reg1, QSFP26_INDEX⟩
  | 27 => ⟨reg1, QSFP27_INDEX⟩
  | 28 => ⟨reg1, QSFP28_INDEX⟩
  | 29 => ⟨reg1, QSFP29_INDEX⟩
  | 30 => ⟨reg1, QSFP30_INDEX⟩
  | 31 => ⟨reg1, QSFP31_INDEX⟩
  | 32 => ⟨reg1, QSFP32_INDEX⟩
  | _ => ⟨0, 0⟩

/-- Bindings of `qsfpN_rst` (show/set_qsfp_rst0 on `QSFP_RST_REG0` for
ports 17-24, show/set_qsfp_rst1 on `QSFP_RST_REG1` for ports 25-32). -/
def qsfp_rst_desc : Nat → AttrDesc := qsfpDesc QSFP_RST_REG0 QSFP_RST_REG1

/-- Bindings of `qsfpN_lpmod` (show/set_qsfp_initmod0/1). -/
def qsfp_lpmod_desc : Nat → AttrDesc :=
  qsfpDesc QSFP_INITMOD_REG0 QSFP_INITMOD_REG1

/-- Bindings of `qsfpN_modsel` (show/set_qsfp_modsel0/1). -/
def qsfp_modsel_desc : Nat → AttrDesc :=
  qsfpDesc QSFP_MODSEL_REG0 QSFP_MODSEL_REG1

/-- Bindings of `qsfpN_prs` (show_qsfp_modprs0/1, read-only). -/
def qsfp_prs_desc : Nat → AttrDesc :=
  qsfpDesc QSFP_MODPRS_REG0 QSFP_MODPRS_REG1

/-- Bindings of `qsfpN_int` (show_qsfp_int0/1, read-only). -/
def qsfp_int_desc : Nat → AttrDesc := qsfpDesc QSFP_INT_REG0 QSFP_INT_REG1

/-! ## All driver operations, for cache-immutability statements

None of the show/store functions ever assigns to `data->code_*`; the
step function below makes that explicit: every operation is run against
a `CpldData` and returns it together with the bus transactions it
issued. -/

/-- One sysfs operation of the driver. -/
inductive DriverOp where
  | getCodeVer
  | getCodeType
  | getCodeDay
  | getCodeMonth
  | getCodeYear
  | getScratch
  | setScratch (k : KstrtoRes) (cnt : Nat)
  | getBit (reg i : Nat)
  | setBit (reg i : Nat) (k : KstrtoRes) (cnt : Nat)

/-- Run one operation: the resulting `CpldData` and the bus trace.
Only probe ever stores into the identification fields, so every
operation returns `d` itself, exactly as the C functions never assign
to `data->code_*`. -/
def runOp (op : DriverOp) (d : CpldData) (tr : Transport) :
    CpldData × List BusOp :=
  match op with
  | DriverOp.getCodeVer => (d, (show_code_ver d).2)
  | DriverOp.getCodeType => (d, (show_code_type d).2)
  | DriverOp.getCodeDay => (d, (show_code_day d).2)
  | DriverOp.getCodeMonth => (d, (show_code_month d).2)
  | DriverOp.getCodeYear => (d, (show_code_year d).2)
  | DriverOp.getScratch => (d, (show_scratch tr).2)
  | DriverOp.setScratch k cnt => (d, (set_scratch k tr cnt).2)
  | DriverOp.getBit reg i => (d, (show_bit_common reg i tr).2)
  | DriverOp.setBit reg i k cnt => (d, (set_bit_common reg i k tr cnt).2)

/-- A transport whose reads all return the byte `v` and whose writes
succeed; used to instantiate claims at concrete register contents. -/
def constTransport (v : Int) : Transport :=
  { readB := fun _ => v, writeB := fun _ _ => 0 }

/-- A transport whose reads and writes all fail with `-EIO_errno`. -/
def failTransport : Transport :=
  { readB := fun _ => -EIO_errno, writeB := fun _ _ => -EIO_errno }

instance (t : List LockEv) (r w : Nat) : Decidable (heldBetween t r w) :=
  inferInstanceAs (Decidable (∀ k, k ≤ w → r < k → 0 < lockDepth (t.take k)))

/-! # Theorems -/

set_option maxRecDepth 4000

/-- C2: for every register byte `v`, bit index `i`, boolean `b` and
other bit index `j ≠ i`, the masked read-modify-write computation
`(v & ~(1 << i) & 0xFF) | (b << i)` changes only bit `i`: bit `j` of
the injected byte equals bit `j` of `v`. -/
theorem c2_inject_preserves_other_bits :
    ∀ v, v < 256 → ∀ i, i < 8 → ∀ b, b < 2 → ∀ j, j < 8 → j ≠ i →
      extractBit (injectBit v i b) j = extractBit v j := by
  decide

theorem c2_witness :
    (0xAB : Nat) < 256 ∧ (3 : Nat) < 8 ∧ (1 : Nat) < 2 ∧ (5 : Nat) < 8 ∧
      (5 : Nat) ≠ 3 ∧ extractBit (injectBit 0xAB 3 1) 5 = extractBit 0xAB 5 :=
  ⟨by decide, by decide, by decide, by decide, by decide,
   c2_inject_preserves_other_bits 0xAB (by decide) 3 (by decide) 1 (by decide)
     5 (by decide) (by decide)⟩

/-- C3: for every register byte `v`, bit index `i` and boolean `b`,
extracting bit `i` after injecting `b` at bit `i` yields `b`, and
injecting at bit `i` the value extracted from bit `i` of `v` yields `v`
itself (round-trip and idempotence of the bitfield codec). -/
theorem c3_extract_inject_roundtrip :
    ∀ v, v < 256 → ∀ i, i < 8 → ∀ b, b < 2 →
      extractBit (injectBit v i b) i = b ∧ injectBit v i (extractBit v i) = v := by
  decide

theorem c3_witness :
    (0xAB : Nat) < 256 ∧ (3 : Nat) < 8 ∧ (0 : Nat) < 2 ∧
      (extractBit (injectBit 0xAB 3 0) 3 = 0 ∧ injectBit 0xAB 3 (extractBit 0xAB 3) = 0xAB) :=
  ⟨by decide, by decide, by decide,
   c3_extract_inject_roundtrip 0xAB (by decide) 3 (by decide) 0 (by decide)⟩

/-- C4: for every writable single-bit attribute (any register and bit
index), when the caller-supplied input fails to parse the store returns
the parse error, and when it parses to a value greater than 1 it
returns `-EINVAL`; in both cases the bus trace is empty, so the target
register is neither read nor written. -/
theorem c4_invalid_value_no_bus_access :
    ∀ (reg index : Nat) (k : KstrtoRes) (tr : Transport) (count : Nat),
      (k.ret ≠ 0 → set_bit_common reg index k tr count = (k.ret, [])) ∧
      (k.ret = 0 → 1 < k.val → set_bit_common reg index k tr count = (-EINVAL, [])) := by
  intro reg index k tr count
  constructor
  · intro h
    simp [set_bit_common, h]
  · intro h0 h1
    simp [set_bit_common, h0, h1]

theorem c4_witness :
    set_bit_common RST_REG 0 ⟨0, 2⟩ (constTransport 0) 7 = (-EINVAL, []) ∧
      set_bit_common RST_REG 0 ⟨-5, 0⟩ (constTransport 0) 7 = (-5, []) :=
  ⟨(c4_invalid_value_no_bus_access RST_REG 0 ⟨0, 2⟩ (constTransport 0) 7).2
      rfl (by decide),
   (c4_invalid_value_no_bus_access RST_REG 0 ⟨-5, 0⟩ (constTransport 0) 7).1
      (by decide)⟩

/-- C1 counterexample: in the event trace of a store function, the read
of the target register is at position 1 and the write back at position
4, but the mutex is NOT held at every point between them: the guard is
released after the read and re-acquired for the write, so the claimed
continuous hold across steps 2-4 is false. -/
theorem c1_lock_not_held_between_read_and_write :
    (set_bit_events RST_REG 0).get? 1 = some (LockEv.busRead RST_REG) ∧
      (set_bit_events RST_REG 0).get? 4 = some (LockEv.busWrite RST_REG 0) ∧
      ¬ heldBetween (set_bit_events RST_REG 0) 1 4 := by
  decide

/-- C1 amended: the read-modify-write of a store function uses per-call
locking, not a continuous critical section: the read (trace position 1)
and the write (trace position 4) each execute with the mutex held, but
after the read's `mutex_unlock` (position 2) the lock depth is 0, so
another operation on the same register can interleave between the read
and the write. -/
theorem c1_per_call_locking :
    ∀ v : Nat,
      lockDepth ((set_bit_events RST_REG v).take 2) = 1 ∧
      lockDepth ((set_bit_events RST_REG v).take 5) = 1 ∧
      lockDepth ((set_bit_events RST_REG v).take 3) = 0 := by
  intro v
  exact ⟨rfl, rfl, rfl⟩

/-- C6 counterexample: with every transport read failing with `-EIO_errno`
(and the capability check, allocation and sysfs creation succeeding),
probe still returns status 0 — not a negative BusError — and leaves the
Device Instance installed as client data. -/
theorem c6_probe_ignores_read_failure :
    (h4_32d_swpld3_probe ⟨failTransport, true, true, 0⟩).1 = 0 ∧
      (h4_32d_swpld3_probe ⟨failTransport, true, true, 0⟩).2.1.isSome = true := by
  decide

/-- C6 amended: probe never checks the identification reads: whenever
the capability check, the allocation and the sysfs registration
succeed, probe returns status 0 with the instance registered and the
full bus trace issued, for every transport — including transports whose
reads fail; only the preliminary steps can make attach fail (the
capability failure path returns `-EIO_errno` with no instance and no bus
traffic). -/
theorem c6_probe_status_paths :
    ∀ env : ProbeEnv,
      (env.has_byte_data = true → env.alloc_ok = true → env.sysfs_status = 0 →
        h4_32d_swpld3_probe env = (0, some (cacheIdent env.tr).1, probeTrace)) ∧
      (env.has_byte_data = false → h4_32d_swpld3_probe env = (-EIO_errno, none, [])) := by
  intro env
  constructor
  · intro h1 h2 h3
    simp [h4_32d_swpld3_probe, h1, h2, h3, cacheIdent, cpld_i2c_read,
      cpld_i2c_write, probeTrace]
  · intro h1
    simp [h4_32d_swpld3_probe, h1]

theorem c6_witness :
    h4_32d_swpld3_probe ⟨failTransport, true, true, 0⟩ =
      (0, some (cacheIdent failTransport).1, probeTrace) :=
  (c6_probe_status_paths ⟨failTransport, true, true, 0⟩).1 rfl rfl rfl

/-- C7 counterexample: with a transport whose reads and writes all fail
with `-EIO_errno`, a store that passed validation still returns `count`
(here 2, a success), not an error, even though the transport write
failed; and the show function returns a formatted bit (here 1, decoded
from the byte-truncated error code), not an error. -/
theorem c7_set_succeeds_despite_write_failure :
    (set_rst RST_REG_PLD_SOFT_RST ⟨0, 1⟩ failTransport 2).1 = 2 ∧
      failTransport.writeB RST_REG 0 < 0 ∧
      failTransport.readB RST_REG < 0 ∧
      (show_rst RST_REG_PLD_SOFT_RST failTransport).1 = 1 := by
  decide

/-- C7 amended: `cpld_i2c_read` does return the transport's status
(byte or negative errno) unchanged to its internal caller, but the
attribute layer does not propagate failures outward: a show function
truncates the result into a byte and formats a bit from it, and a store
function that passed validation returns `count` (success) regardless of
the transport's read or write status, because `cpld_i2c_write` has
return type `void` and only logs the failure. -/
theorem c7_error_logged_not_raised :
    ∀ (tr : Transport) (reg i count : Nat) (k : KstrtoRes),
      (cpld_i2c_read tr reg).1 = tr.readB reg ∧
      (show_bit_common reg i tr).1 = extractBit (u8ofInt (tr.readB reg)) i ∧
      (k.ret = 0 → k.val ≤ 1 → (set_bit_common reg i k tr count).1 = count) := by
  intro tr reg i count k
  refine ⟨rfl, rfl, ?_⟩
  intro h0 h1
  simp [set_bit_common, h0, Nat.not_lt.mpr h1]

theorem c7_witness :
    (0 : Int) = 0 ∧ (1 : Nat) ≤ 1 ∧
      (set_bit_common RST_REG 0 ⟨0, 1⟩ failTransport 2).1 = 2 :=
  ⟨rfl, by decide,
   (c7_error_logged_not_raised failTransport RST_REG 0 2 ⟨0, 1⟩).2.2 rfl (by decide)⟩

/-- C5: every successful probe issues, after the five identification
reads, the bring-up writes in source order — 0xFF to both per-port
reset registers first, then 0x00 to both low-power-mode registers, then
0x00 to both module-select registers — and consequently, applying the
probe trace to any initial register file, every `qsfpN_rst` attribute
reads 1 and every `qsfpN_lpmod` and `qsfpN_modsel` attribute reads 0
before any explicit write. -/
theorem c5_bringup_sequence :
    ∀ (env : ProbeEnv) (m : Nat → Nat),
      env.has_byte_data = true → env.alloc_ok = true → env.sysfs_status = 0 →
      (h4_32d_swpld3_probe env).2.2 = probeTrace ∧
      (h4_32d_swpld3_probe env).2.2.drop 5 =
        [BusOp.write QSFP_RST_REG0 0xFF, BusOp.write QSFP_RST_REG1 0xFF,
         BusOp.write QSFP_INITMOD_REG0 0x0, BusOp.write QSFP_INITMOD_REG1 0x0,
         BusOp.write QSFP_MODSEL_REG0 0x0, BusOp.write QSFP_MODSEL_REG1 0x0] ∧
      (∀ n, 17 ≤ n → n ≤ 32 →
        (show_bit_common (qsfp_rst_desc n).reg (qsfp_rst_desc n).idx
          (regsTransport (applyTrace m (h4_32d_swpld3_probe env).2.2))).1 = 1 ∧
        (show_bit_common (qsfp_lpmod_desc n).reg (qsfp_lpmod_desc n).idx
          (regsTransport (applyTrace m (h4_32d_swpld3_probe env).2.2))).1 = 0 ∧
        (show_bit_common (qsfp_modsel_desc n).reg (qsfp_modsel_desc n).idx
          (regsTransport (applyTrace m (h4_32d_swpld3_probe env).2.2))).1 = 0) := by
  intro env m h1 h2 h3
  have htr : (h4_32d_swpld3_probe env).2.2 = probeTrace := by
    simp [h4_32d_swpld3_probe, h1, h2, h3, cacheIdent, cpld_i2c_read,
      cpld_i2c_write, probeTrace]
  rw [htr]
  refine ⟨rfl, rfl, ?_⟩
  intro n hn1 hn2
  interval_cases n <;>
    refine ⟨?_, ?_, ?_⟩ <;>
    simp [show_bit_common, cpld_i2c_read, regsTransport, applyTrace, applyOp,
      probeTrace, qsfp_rst_desc, qsfp_lpmod_desc, qsfp_modsel_desc, qsfpDesc,
      u8ofInt, extractBit, QSFP_RST_REG0, QSFP_RST_REG1, QSFP_INITMOD_REG0,
      QSFP_INITMOD_REG1, QSFP_MODSEL_REG0, QSFP_MODSEL_REG1, CODE_REV_REG,
      CODE_DAY_REG, CODE_MONTH_REG, CODE_YEAR_REG, QSFP17_INDEX, QSFP18_INDEX,
      QSFP19_INDEX, QSFP20_INDEX, QSFP21_INDEX, QSFP22_INDEX, QSFP23_INDEX,
      QSFP24_INDEX, QSFP25_INDEX, QSFP26_INDEX, QSFP27_INDEX, QSFP28_INDEX,
      QSFP29_INDEX, QSFP30_INDEX, QSFP31_INDEX, QSFP32_INDEX]

theorem c5_witness :
    (h4_32d_swpld3_probe ⟨constTransport 0, true, true, 0⟩).2.2 = probeTrace ∧
      (show_bit_common (qsfp_rst_desc 17).reg (qsfp_rst_desc 17).idx
        (regsTransport (applyTrace (fun _ => 0)
          (h4_32d_swpld3_probe ⟨constTransport 0, true, true, 0⟩).2.2))).1 = 1 :=
  ⟨(c5_bringup_sequence ⟨constTransport 0, true, true, 0⟩ (fun _ => 0)
      rfl rfl rfl).1,
   ((c5_bringup_sequence ⟨constTransport 0, true, true, 0⟩ (fun _ => 0)
      rfl rfl rfl).2.2 17 (by decide) (by decide)).1⟩

/-- C8: the five identification fields are cached at attach and
immutable thereafter: (a) every identification get is served from the
cache with an empty bus trace; (b) a successful probe installs exactly
the data cached by the identification reads, whose bus trace is the
five reads (each field computed from one read, all during attach);
(c) no driver operation ever mutates the cached fields. -/
theorem c8_ident_cached_immutable :
    (∀ d : CpldData,
      show_code_ver d = (d.code_ver, []) ∧
      show_code_type d = (d.code_type, []) ∧
      show_code_day d = (d.code_day, []) ∧
      show_code_month d = (d.code_month, []) ∧
      show_code_year d = (d.code_year, [])) ∧
    (∀ env : ProbeEnv,
      env.has_byte_data = true → env.alloc_ok = true → env.sysfs_status = 0 →
      (h4_32d_swpld3_probe env).2.1 = some (cacheIdent env.tr).1 ∧
      (cacheIdent env.tr).2 =
        [BusOp.read CODE_REV_REG, BusOp.read CODE_REV_REG,
         BusOp.read CODE_DAY_REG, BusOp.read CODE_MONTH_REG,
         BusOp.read CODE_YEAR_REG]) ∧
    (∀ (op : DriverOp) (d : CpldData) (tr : Transport), (runOp op d tr).1 = d) := by
  refine ⟨?_, ?_, ?_⟩
  · intro d
    exact ⟨rfl, rfl, rfl, rfl, rfl⟩
  · intro env h1 h2 h3
    constructor
    · simp [h4_32d_swpld3_probe, h1, h2, h3]
    · rfl
  · intro op d tr
    cases op <;> rfl

theorem c8_witness :
    (h4_32d_swpld3_probe ⟨constTransport 7, true, true, 0⟩).2.1 =
        some (cacheIdent (constTransport 7)).1 ∧
      show_code_ver ⟨1, 2, 3, 4, 5⟩ = (1, []) ∧
      (runOp (DriverOp.setBit RST_REG 0 ⟨0, 1⟩ 2) ⟨1, 2, 3, 4, 5⟩
        (constTransport 7)).1 = ⟨1, 2, 3, 4, 5⟩ :=
  ⟨(c8_ident_cached_immutable.2.1 ⟨constTransport 7, true, true, 0⟩ rfl rfl rfl).1,
   (c8_ident_cached_immutable.1 ⟨1, 2, 3, 4, 5⟩).1,
   c8_ident_cached_immutable.2.2 (DriverOp.setBit RST_REG 0 ⟨0, 1⟩ 2)
     ⟨1, 2, 3, 4, 5⟩ (constTransport 7)⟩

/-- C9 counterexample: with the identification register holding 0xFF,
the cached `code_type` is `0xFF >> 7 = 1`, while the 3-bit unsigned
type field of the register (the spec's `extractField` with width 3,
sharing the byte with the 6-bit version field) is 7 — so the cached
`code_type` is not the 3-bit type field the claim describes. -/
theorem c9_code_type_not_three_bit_field :
    (cacheIdent (constTransport 0xFF)).1.code_type = 1 ∧
      extractField 0xFF 5 3 = 7 ∧
      (cacheIdent (constTransport 0xFF)).1.code_type ≠
        ((extractField 0xFF 5 3 : Nat) : Int) := by
  decide

/-- C9 amended: for every register byte `v`, the cached `code_ver` is
the 6-bit field `v & 0x3F` (bits 0-5), as claimed, but the cached
`code_type` is `v >> 7` — the single top bit of the register, the shift
count `CODE_REV_REG_TYPE = 0x7` being used as a bit position, not the
3-bit field of the claim. -/
theorem c9_ident_decomposition :
    ∀ v, v < 256 →
      (cacheIdent (constTransport ((v : Nat) : Int))).1.code_ver =
          ((v &&& 0x3F : Nat) : Int) ∧
      (cacheIdent (constTransport ((v : Nat) : Int))).1.code_type =
          ((v >>> 7 : Nat) : Int) := by
  decide

theorem c9_witness :
    (0xBF : Nat) < 256 ∧
      ((cacheIdent (constTransport ((0xBF : Nat) : Int))).1.code_ver =
          ((0xBF &&& 0x3F : Nat) : Int) ∧
        (cacheIdent (constTransport ((0xBF : Nat) : Int))).1.code_type =
          ((0xBF >>> 7 : Nat) : Int)) :=
  ⟨by decide, c9_ident_decomposition 0xBF (by decide)⟩

/-- C10: the port-to-bit mapping is reversed with respect to port
numbering: for every family (`rst`, `lpmod`, `modsel`, `prs`, `int`)
port `N` with 17 ≤ N ≤ 24 binds to bit `24 - N` of the family's
register 0, port `N` with 25 ≤ N ≤ 32 binds to bit `32 - N` of the
family's register 1 (so qsfp17 owns bit 7 and qsfp24 owns bit 0), and
within each register the bit indices of distinct ports are pairwise
distinct. -/
theorem c10_port_bit_mapping :
    (∀ n, 17 ≤ n → n ≤ 24 →
      qsfp_rst_desc n = ⟨QSFP_RST_REG0, 24 - n⟩ ∧
      qsfp_lpmod_desc n = ⟨QSFP_INITMOD_REG0, 24 - n⟩ ∧
      qsfp_modsel_desc n = ⟨QSFP_MODSEL_REG0, 24 - n⟩ ∧
      qsfp_prs_desc n = ⟨QSFP_MODPRS_REG0, 24 - n⟩ ∧
      qsfp_int_desc n = ⟨QSFP_INT_REG0, 24 - n⟩) ∧
    (∀ n, 25 ≤ n → n ≤ 32 →
      qsfp_rst_desc n = ⟨QSFP_RST_REG1, 32 - n⟩ ∧
      qsfp_lpmod_desc n = ⟨QSFP_INITMOD_REG1, 32 - n⟩ ∧
      qsfp_modsel_desc n = ⟨QSFP_MODSEL_REG1, 32 - n⟩ ∧
      qsfp_prs_desc n = ⟨QSFP_MODPRS_REG1, 32 - n⟩ ∧
      qsfp_int_desc n = ⟨QSFP_INT_REG1, 32 - n⟩) ∧
    (∀ reg0 reg1 : Nat, ∀ m n, 17 ≤ m → m ≤ 24 → 17 ≤ n → n ≤ 24 → m ≠ n →
      (qsfpDesc reg0 reg1 m).idx ≠ (qsfpDesc reg0 reg1 n).idx) ∧
    (∀ reg0 reg1 : Nat, ∀ m n, 25 ≤ m → m ≤ 32 → 25 ≤ n → n ≤ 32 → m ≠ n →
      (qsfpDesc reg0 reg1 m).idx ≠ (qsfpDesc reg0 reg1 n).idx) := by
  refine ⟨?_, ?_, ?_, ?_⟩
  · intro n h1 h2
    interval_cases n <;> exact ⟨rfl, rfl, rfl, rfl, rfl⟩
  · intro n h1 h2
    interval_cases n <;> exact ⟨rfl, rfl, rfl, rfl, rfl⟩
  · intro reg0 reg1 m n hm1 hm2 hn1 hn2 hmn
    interval_cases m <;> interval_cases n <;>
      simp_all [qsfpDesc, QSFP17_INDEX, QSFP18_INDEX, QSFP19_INDEX,
        QSFP20_INDEX, QSFP21_INDEX, QSFP22_INDEX, QSFP23_INDEX, QSFP24_INDEX]
  · intro reg0 reg1 m n hm1 hm2 hn1 hn2 hmn
    interval_cases m <;> interval_cases n <;>
      simp_all [qsfpDesc, QSFP25_INDEX, QSFP26_INDEX, QSFP27_INDEX,
        QSFP28_INDEX, QSFP29_INDEX, QSFP30_INDEX, QSFP31_INDEX, QSFP32_INDEX]

theorem c10_witness :
    qsfp_rst_desc 17 = ⟨QSFP_RST_REG0, 7⟩ ∧
      qsfp_rst_desc 24 = ⟨QSFP_RST_REG0, 0⟩ ∧
      qsfp_rst_desc 25 = ⟨QSFP_RST_REG1, 7⟩ ∧
      qsfp_rst_desc 32 = ⟨QSFP_RST_REG1, 0⟩ ∧
      (qsfpDesc QSFP_RST_REG0 QSFP_RST_REG1 17).idx ≠
        (qsfpDesc QSFP_RST_REG0 QSFP_RST_REG1 18).idx :=
  ⟨(c10_port_bit_mapping.1 17 (by decide) (by decide)).1,
   (c10_port_bit_mapping.1 24 (by decide) (by decide)).1,
   (c10_port_bit_mapping.2.1 25 (by decide) (by decide)).1,
   (c10_port_bit_mapping.2.1 32 (by decide) (by decide)).1,
   c10_port_bit_mapping.2.2.1 QSFP_RST_REG0 QSFP_RST_REG1 17 18
     (by decide) (by decide) (by decide) (by decide) (by decide)⟩

end Swpld3
